import Mathlib

/-!
Verification of the blockatlas lending aggregation layer.

Embedding conventions:
* Go structs from `pkg/blockatlas/lending.go` become Lean structures with the
  same field names (`Type` is rendered `type` because `Type` is reserved in
  Lean; `int64` fields become `Int`, `float64` becomes `Float`, used only as
  opaque data).
* The Go registry `map[string]blockatlas.LendingAPI` becomes an association
  list `List (String × LendingAPI)`; `apis[provider]` becomes `List.lookup`.
* A Go function returning `([]T, error)` becomes
  `Option (List T) × Option String`: the first component models the slice
  (`none` is a nil slice, `some []` a non-nil empty slice), the second the
  error (`none` is a nil error, `some msg` the error message).
* Calling a method on a `LendingAPI` interface value is an external effect in
  Go, so the service functions additionally return the trace of backend
  invocations (a `List BCall`) and the final registry state, making
  "backend never invoked" and "registry unchanged" directly expressible.
  The backends themselves receive no reference to the registry, as in the
  source, so they cannot touch it.
-/

/-- Go: `type ProviderType string`. -/
abbrev ProviderType := String

def ProviderTypeLending : ProviderType := "lending"

def ProviderTypeStaking : ProviderType := "staking"

/-- Go struct `DefiTokenInfo` from lending.go. -/
structure DefiTokenInfo where
  Symbol : String
  Chain : String
  ContractAddress : String
deriving Repr

/-- Go struct `DefiAssetInfo` from lending.go. -/
structure DefiAssetInfo where
  AssetToken : DefiTokenInfo
  TechnicalToken : DefiTokenInfo
deriving Repr

/-- Go struct `AssetMetaInfo` from lending.go; `DefiInfo *DefiAssetInfo` is a
pointer, modelled as `Option`. -/
structure AssetMetaInfo where
  DefiInfo : Option DefiAssetInfo
deriving Repr

/-- Go struct `AssetInfo` from lending.go. -/
structure AssetInfo where
  Symbol : String
  Description : String
  APY : Float
  YieldPeriod : Int
  YieldFrequency : Int
  TotalSupply : String
  MinimumAmount : String
  MetaInfo : AssetMetaInfo
deriving Repr

/-- Go struct `LendingProviderInfo` from lending.go. -/
structure LendingProviderInfo where
  ID : String
  Description : String
  Image : String
  Website : String
deriving Repr

/-- Go struct `LendingProvider` from lending.go (`Type` rendered `type`). -/
structure LendingProvider where
  ID : String
  Info : LendingProviderInfo
  type : ProviderType
  Assets : List AssetInfo
deriving Repr

/-- Go struct `AccountRequest` from lending.go. -/
structure AccountRequest where
  Addresses : List String
  Assets : List String
deriving Repr

/-- Go struct `LendingContract` from lending.go. -/
structure LendingContract where
  Asset : AssetInfo
  CurrentAmount : String
deriving Repr

/-- Go struct `AccountLendingContracts` from lending.go. -/
structure AccountLendingContracts where
  Address : String
  Contracts : List LendingContract
deriving Repr

/-- Modelled from the spec: the `RatesRequest` payload is not under `src/`
(only its use in the endpoint is); the spec gives its shape as
`RatesRequest{assets: sequence of string}`. -/
structure RatesRequest where
  Assets : List String
deriving Repr

/-- Modelled from the spec: the `LendingAssetRates` record type is not under
`src/`; the spec describes it only as a rate record with an asset symbol and
an APY (`[{symbol:"ETH", apy:0.05}]`). Its shape is irrelevant to the
dispatch logic, which treats it as opaque. -/
structure LendingAssetRates where
  symbol : String
  apy : Float
deriving Repr

/-- The Go `blockatlas.LendingAPI` interface: the three backend capabilities.
Each slice-returning method yields Go's `([]T, error)` pair. -/
structure LendingAPI where
  GetProviderInfo : Except String LendingProvider
  GetCurrentLendingRates : List String → Option (List LendingAssetRates) × Option String
  GetAccountLendingContracts : AccountRequest → Option (List AccountLendingContracts) × Option String

/-- The registry `map[string]blockatlas.LendingAPI`. -/
abbrev Registry := List (String × LendingAPI)

/-- One observable backend invocation, recording the registry key of the
backend invoked and the arguments passed. -/
inductive BCall where
  | providerInfo (key : String)
  | lendingRates (key : String) (assets : List String)
  | accountContracts (key : String) (req : AccountRequest)
deriving Repr

/-- The loop body of `getProviders`: invoke `GetProviderInfo` on one entry,
`continue` on error, append the provider on success; the invocation is
recorded in the trace. -/
def provStep (acc : List LendingProvider × List BCall) (kv : String × LendingAPI) :
    List LendingProvider × List BCall :=
  match kv.2.GetProviderInfo with
  | .error _ => (acc.1, acc.2 ++ [BCall.providerInfo kv.1])
  | .ok prov => (acc.1 ++ [prov], acc.2 ++ [BCall.providerInfo kv.1])

/-- Go `getProviders` (part_000 lines 88-98): starts from the non-nil empty
slice `ret := []blockatlas.LendingProvider{}`, ranges over the map collecting
the successes, and returns `(ret, nil)`. -/
def getProviders (apis : Registry) :
    (Option (List LendingProvider) × Option String) × List BCall × Registry :=
  let r := apis.foldl provStep ([], [])
  ((some r.1, none), r.2, apis)

/-- Go `getRates` (part_000 lines 101-107): look up the provider; if absent
return `(nil, fmt.Errorf("Unknown provider %v", provider))`, else return
`api.GetCurrentLendingRates(req.Assets)` unchanged. -/
def getRates (provider : String) (req : RatesRequest) (apis : Registry) :
    (Option (List LendingAssetRates) × Option String) × List BCall × Registry :=
  match apis.lookup provider with
  | none => ((none, some ("Unknown provider " ++ provider)), [], apis)
  | some api =>
      (api.GetCurrentLendingRates req.Assets, [BCall.lendingRates provider req.Assets], apis)

/-- Go `getAccounts` (part_000 lines 110-116): look up the provider; if absent
return `(nil, fmt.Errorf("Unknown provider %v", provider))`, else return
`api.GetAccountLendingContracts(req)` unchanged. -/
def getAccounts (provider : String) (req : AccountRequest) (apis : Registry) :
    (Option (List AccountLendingContracts) × Option String) × List BCall × Registry :=
  match apis.lookup provider with
  | none => ((none, some ("Unknown provider " ++ provider)), [], apis)
  | some api =>
      (api.GetAccountLendingContracts req, [BCall.accountContracts provider req], apis)

/-! ### Concrete example backends, for witnesses and the spec's worked example -/

/-- A concrete provider descriptor for registry key `"a"`. -/
def provA : LendingProvider :=
  { ID := "a"
    Info := { ID := "a", Description := "provider a", Image := "", Website := "" }
    type := ProviderTypeLending
    Assets := [] }

/-- A backend whose every call succeeds (registry key `"a"`). -/
def okApi : LendingAPI :=
  { GetProviderInfo := .ok provA
    GetCurrentLendingRates := fun assets =>
      (some (assets.map fun s => { symbol := s, apy := 0.05 }), none)
    GetAccountLendingContracts := fun req =>
      (some (req.Addresses.map fun a => { Address := a, Contracts := [] }), none) }

/-- A backend whose every call fails with `ProviderUnavailable`. -/
def failApi : LendingAPI :=
  { GetProviderInfo := .error "ProviderUnavailable"
    GetCurrentLendingRates := fun _ => (none, some "ProviderUnavailable")
    GetAccountLendingContracts := fun _ => (none, some "ProviderUnavailable") }

/-- The spec's worked registry `{"a": ok-backend, "b": failing-backend}`. -/
def regAB : Registry := [("a", okApi), ("b", failApi)]

/-! ### Helper lemmas on the `getProviders` fold -/

theorem foldl_provStep_fst (apis : Registry) (acc : List LendingProvider × List BCall) :
    (apis.foldl provStep acc).1
      = acc.1 ++ apis.filterMap (fun kv => kv.2.GetProviderInfo.toOption) := by
  induction apis generalizing acc with
  | nil => simp
  | cons kv t ih =>
      cases h : kv.2.GetProviderInfo with
      | error e => simp [provStep, h, ih, Except.toOption]
      | ok prov => simp [provStep, h, ih, Except.toOption]

/-- The list component of `getProviders` is exactly the successful
`GetProviderInfo` results, in registry order. -/
theorem getProviders_val (apis : Registry) :
    (getProviders apis).1.1
      = some (apis.filterMap fun kv => kv.2.GetProviderInfo.toOption) := by
  simp [getProviders, foldl_provStep_fst]

/-! ### Go encoding/json model for the lending domain types

Marshalling follows the struct tags in lending.go and Go's `omitempty`
semantics: a tagged field is omitted when its value is empty, where "empty"
means the zero of a basic type, a nil pointer, or a nil/empty slice, map or
string — a struct value is never empty, so `omitempty` on a struct-typed
field (such as `MetaInfo AssetMetaInfo`) has no effect and the field is
always emitted. Unmarshalling fills missing object keys with the Go zero
value and fails on a type mismatch. -/

inductive Json where
  | null
  | bool (b : Bool)
  | num (n : Int)
  | fnum (f : Float)
  | str (s : String)
  | arr (xs : List Json)
  | obj (fields : List (String × Json))
deriving Repr

/-- Field lookup in a serialized JSON object. -/
def getField (j : Json) (k : String) : Option Json :=
  match j with
  | .obj fs => fs.lookup k
  | _ => none

/-- `DefiTokenInfo`: `symbol`, `chain`, and `contract_address,omitempty`
(string field, omitted when `""`). -/
def marshalDefiTokenInfo (t : DefiTokenInfo) : Json :=
  .obj ([("symbol", .str t.Symbol), ("chain", .str t.Chain)]
    ++ (if t.ContractAddress = "" then [] else [("contract_address", .str t.ContractAddress)]))

/-- `DefiAssetInfo`: `asset_token,omitempty` and `technical_token,omitempty`
are struct-typed, so `omitempty` is inert and both are always emitted. -/
def marshalDefiAssetInfo (d : DefiAssetInfo) : Json :=
  .obj [("asset_token", marshalDefiTokenInfo d.AssetToken),
        ("technical_token", marshalDefiTokenInfo d.TechnicalToken)]

/-- `AssetMetaInfo`: `defi_info,omitempty` is a pointer, omitted when nil. -/
def marshalAssetMetaInfo (m : AssetMetaInfo) : Json :=
  .obj (match m.DefiInfo with
    | none => []
    | some d => [("defi_info", marshalDefiAssetInfo d)])

/-- `AssetInfo`: all fields tagged; `meta_info,omitempty` is struct-typed, so
it is always emitted (Go's `omitempty` does not apply to struct values). -/
def marshalAssetInfo (a : AssetInfo) : Json :=
  .obj [("symbol", .str a.Symbol),
        ("description", .str a.Description),
        ("apy", .fnum a.APY),
        ("yield_period", .num a.YieldPeriod),
        ("yield_freq", .num a.YieldFrequency),
        ("total_supply", .str a.TotalSupply),
        ("minimum_amount", .str a.MinimumAmount),
        ("meta_info", marshalAssetMetaInfo a.MetaInfo)]

def marshalLendingProviderInfo (i : LendingProviderInfo) : Json :=
  .obj [("id", .str i.ID), ("description", .str i.Description),
        ("image", .str i.Image), ("website", .str i.Website)]

def marshalLendingProvider (p : LendingProvider) : Json :=
  .obj [("id", .str p.ID),
        ("info", marshalLendingProviderInfo p.Info),
        ("type", .str p.type),
        ("assets", .arr (p.Assets.map marshalAssetInfo))]

def marshalLendingContract (c : LendingContract) : Json :=
  .obj [("asset", marshalAssetInfo c.Asset), ("current_amount", .str c.CurrentAmount)]

/-- Decode a string field: missing key gives the zero value `""`,
a non-string value is a type error. -/
def jStr : Option Json → Option String
  | some (.str s) => some s
  | none => some ""
  | _ => none

/-- Decode an `int64` field: missing key gives `0`. -/
def jInt : Option Json → Option Int
  | some (.num n) => some n
  | none => some 0
  | _ => none

/-- Decode a `float64` field: missing key gives `0.0`; a JSON integer is
also accepted, as in Go. -/
def jFloat : Option Json → Option Float
  | some (.fnum f) => some f
  | some (.num n) => some (Float.ofInt n)
  | none => some 0.0
  | _ => none

def unmarshalDefiTokenInfo (j : Json) : Option DefiTokenInfo :=
  match j with
  | .obj _ => do
      let symbol ← jStr (getField j "symbol")
      let chain ← jStr (getField j "chain")
      let ca ← jStr (getField j "contract_address")
      some ⟨symbol, chain, ca⟩
  | _ => none

/-- Decode a struct-typed sub-field: a missing key leaves the zero value. -/
def jSub (dec : Json → Option α) (zero : α) : Option Json → Option α
  | none => some zero
  | some j => dec j

def unmarshalDefiAssetInfo (j : Json) : Option DefiAssetInfo :=
  match j with
  | .obj _ => do
      let at' ← jSub unmarshalDefiTokenInfo ⟨"", "", ""⟩ (getField j "asset_token")
      let tt ← jSub unmarshalDefiTokenInfo ⟨"", "", ""⟩ (getField j "technical_token")
      some ⟨at', tt⟩
  | _ => none

/-- Decode a pointer field: missing key or JSON null gives a nil pointer. -/
def jPtr (dec : Json → Option α) : Option Json → Option (Option α)
  | none => some none
  | some .null => some none
  | some j => some <$> dec j

def unmarshalAssetMetaInfo (j : Json) : Option AssetMetaInfo :=
  match j with
  | .obj _ => do
      let di ← jPtr unmarshalDefiAssetInfo (getField j "defi_info")
      some ⟨di⟩
  | _ => none

def unmarshalAssetInfo (j : Json) : Option AssetInfo :=
  match j with
  | .obj _ => do
      let symbol ← jStr (getField j "symbol")
      let description ← jStr (getField j "description")
      let apy ← jFloat (getField j "apy")
      let yp ← jInt (getField j "yield_period")
      let yf ← jInt (getField j "yield_freq")
      let ts ← jStr (getField j "total_supply")
      let ma ← jStr (getField j "minimum_amount")
      let mi ← jSub unmarshalAssetMetaInfo ⟨none⟩ (getField j "meta_info")
      some ⟨symbol, description, apy, yp, yf, ts, ma, mi⟩
  | _ => none

def zeroAssetInfo : AssetInfo :=
  ⟨"", "", 0.0, 0, 0, "", "", ⟨none⟩⟩

def unmarshalLendingContract (j : Json) : Option LendingContract :=
  match j with
  | .obj _ => do
      let a ← jSub unmarshalAssetInfo zeroAssetInfo (getField j "asset")
      let ca ← jStr (getField j "current_amount")
      some ⟨a, ca⟩
  | _ => none

/-- `getProviders` always returns the pair (successes, nil error). -/
theorem getProviders_eq (apis : Registry) :
    (getProviders apis).1
      = (some (apis.filterMap fun kv => kv.2.GetProviderInfo.toOption), none) := by
  show (some (apis.foldl provStep ([], [])).1, (none : Option String)) = _
  rw [foldl_provStep_fst]
  simp

/-! ### Round-trip lemmas for the JSON model -/

theorem roundtrip_defiTokenInfo (t : DefiTokenInfo) :
    unmarshalDefiTokenInfo (marshalDefiTokenInfo t) = some t := by
  rcases t with ⟨s, c, ca⟩
  by_cases h : ca = ""
  · subst h; rfl
  · simp [marshalDefiTokenInfo, unmarshalDefiTokenInfo, getField, jStr, h, List.lookup]

theorem roundtrip_defiAssetInfo (d : DefiAssetInfo) :
    unmarshalDefiAssetInfo (marshalDefiAssetInfo d) = some d := by
  rcases d with ⟨a, t⟩
  simp [marshalDefiAssetInfo, unmarshalDefiAssetInfo, getField, jSub,
    roundtrip_defiTokenInfo, List.lookup]

theorem roundtrip_assetMetaInfo (m : AssetMetaInfo) :
    unmarshalAssetMetaInfo (marshalAssetMetaInfo m) = some m := by
  rcases m with ⟨di⟩
  cases di with
  | none => rfl
  | some d =>
      have h2 : unmarshalDefiAssetInfo (Json.obj
          [("asset_token", marshalDefiTokenInfo d.AssetToken),
           ("technical_token", marshalDefiTokenInfo d.TechnicalToken)]) = some d :=
        roundtrip_defiAssetInfo d
      simp [marshalAssetMetaInfo, unmarshalAssetMetaInfo, getField, jPtr,
        marshalDefiAssetInfo, List.lookup, h2]

theorem roundtrip_assetInfo (a : AssetInfo) :
    unmarshalAssetInfo (marshalAssetInfo a) = some a := by
  rcases a with ⟨s, d, apy, yp, yf, ts, ma, mi⟩
  simp [marshalAssetInfo, unmarshalAssetInfo, getField, jStr, jInt, jFloat, jSub,
    roundtrip_assetMetaInfo, List.lookup]

theorem roundtrip_lendingContract (c : LendingContract) :
    unmarshalLendingContract (marshalLendingContract c) = some c := by
  rcases c with ⟨a, ca⟩
  simp [marshalLendingContract, unmarshalLendingContract, getField, jSub, jStr,
    roundtrip_assetInfo, List.lookup]

/-! ### The claims -/

/-- Claim C1: for every provider identifier not present in the registry,
`getRates` and `getAccounts` return the error "Unknown provider <id>",
a nil result, and an empty backend-invocation trace — no backend method
(`GetCurrentLendingRates` / `GetAccountLendingContracts`) is ever called. -/
theorem C1_unknown_provider_no_backend
    (provider : String) (rreq : RatesRequest) (areq : AccountRequest) (apis : Registry)
    (h : apis.lookup provider = none) :
    getRates provider rreq apis
      = ((none, some ("Unknown provider " ++ provider)), [], apis) ∧
    getAccounts provider areq apis
      = ((none, some ("Unknown provider " ++ provider)), [], apis) := by
  constructor <;> simp [getRates, getAccounts, h]

theorem C1_witness :
    getRates "zzz" ⟨["ETH"]⟩ regAB
      = ((none, some ("Unknown provider " ++ "zzz")), [], regAB) ∧
    getAccounts "zzz" ⟨["0x1"], []⟩ regAB
      = ((none, some ("Unknown provider " ++ "zzz")), [], regAB) :=
  C1_unknown_provider_no_backend "zzz" ⟨["ETH"]⟩ ⟨["0x1"], []⟩ regAB rfl

/-- Claim C2: for every registry, `getProviders` returns a nil error (the
listing itself never fails), and when every registered backend's
`GetProviderInfo` fails it returns the empty sequence. -/
theorem C2_getProviders_never_fails (apis : Registry) :
    (getProviders apis).1.2 = none ∧
    ((∀ kv ∈ apis, kv.2.GetProviderInfo.toOption = none) →
      (getProviders apis).1.1 = some []) := by
  refine ⟨rfl, fun h => ?_⟩
  rw [getProviders_val]
  simp only [Option.some.injEq]
  exact List.filterMap_eq_nil_iff.mpr h

theorem C2_witness :
    (getProviders [("b", failApi)]).1.2 = none ∧
    (getProviders [("b", failApi)]).1.1 = some [] :=
  ⟨(C2_getProviders_never_fails [("b", failApi)]).1,
   (C2_getProviders_never_fails [("b", failApi)]).2
     (by intro kv hkv; simp only [List.mem_singleton] at hkv; subst hkv; rfl)⟩

/-- Claim C3: the sequence returned by `getProviders` is exactly the
successful `GetProviderInfo` results, each unchanged — no failed provider
included, no successful one excluded; and on the spec's worked registry
`{"a": ok-backend, "b": failing-backend}` it is exactly the info for "a". -/
theorem C3_getProviders_exact (apis : Registry) :
    (getProviders apis).1.1
      = some (apis.filterMap fun kv => kv.2.GetProviderInfo.toOption) ∧
    (getProviders regAB).1.1 = some [provA] := by
  refine ⟨getProviders_val apis, ?_⟩
  rfl

/-- Claim C4: for every provider identifier present in the registry,
`getRates` returns exactly the `(value, error)` pair produced by that
backend's `GetCurrentLendingRates` on the request's asset list, and
`getAccounts` exactly the pair produced by `GetAccountLendingContracts`
on the request — nothing is wrapped, modified or reinterpreted. -/
theorem C4_delegation_unchanged
    (provider : String) (rreq : RatesRequest) (areq : AccountRequest)
    (apis : Registry) (api : LendingAPI)
    (h : apis.lookup provider = some api) :
    (getRates provider rreq apis).1 = api.GetCurrentLendingRates rreq.Assets ∧
    (getAccounts provider areq apis).1 = api.GetAccountLendingContracts areq := by
  constructor <;> simp [getRates, getAccounts, h]

theorem C4_witness :
    (getRates "a" ⟨["ETH"]⟩ regAB).1 = okApi.GetCurrentLendingRates ["ETH"] ∧
    (getAccounts "a" ⟨["0x1"], []⟩ regAB).1
      = okApi.GetAccountLendingContracts ⟨["0x1"], []⟩ :=
  C4_delegation_unchanged "a" ⟨["ETH"]⟩ ⟨["0x1"], []⟩ regAB okApi rfl

/-- A concrete asset whose `MetaInfo.DefiInfo` is absent (a nil pointer). -/
def exAssetNoDefi : AssetInfo :=
  { Symbol := "ETH", Description := "Ethereum", APY := 0.05, YieldPeriod := 0,
    YieldFrequency := 86400, TotalSupply := "1000000", MinimumAmount := "0",
    MetaInfo := ⟨none⟩ }

/-- A concrete provider carrying `exAssetNoDefi`. -/
def exProvNoDefi : LendingProvider :=
  { ID := "a"
    Info := { ID := "a", Description := "provider a", Image := "", Website := "" }
    type := ProviderTypeLending
    Assets := [exAssetNoDefi] }

/-- Claim C5 is false on the code: for a provider whose asset has
`MetaInfo.DefiInfo` absent, the serialization does omit `defi_info`
(pointer with `omitempty`), but it does NOT omit `meta_info` — Go's
`omitempty` never applies to a struct-typed field, so the asset object
carries `"meta_info": {}`, an empty-object placeholder. -/
theorem C5_meta_info_not_omitted :
    getField (marshalLendingProvider exProvNoDefi) "assets"
      = some (.arr [marshalAssetInfo exAssetNoDefi]) ∧
    getField (marshalAssetInfo exAssetNoDefi) "meta_info" = some (.obj []) ∧
    getField (marshalAssetInfo exAssetNoDefi) "defi_info" = none := by
  refine ⟨rfl, rfl, rfl⟩

/-- Claim C6: the decimal-string fields `TotalSupply`, `MinimumAmount` and
`CurrentAmount` are serialized as JSON strings holding the exact field value,
and serializing then deserializing the containing entity returns the entity
unchanged — the strings round-trip byte-for-byte, never coerced through a
numeric type. -/
theorem C6_decimal_strings_roundtrip (a : AssetInfo) (c : LendingContract) :
    unmarshalAssetInfo (marshalAssetInfo a) = some a ∧
    unmarshalLendingContract (marshalLendingContract c) = some c ∧
    getField (marshalAssetInfo a) "total_supply" = some (.str a.TotalSupply) ∧
    getField (marshalAssetInfo a) "minimum_amount" = some (.str a.MinimumAmount) ∧
    getField (marshalLendingContract c) "current_amount" = some (.str c.CurrentAmount) :=
  ⟨roundtrip_assetInfo a, roundtrip_lendingContract c, rfl, rfl, rfl⟩

/-- Claim C7: each of the three operations is a pure function of the registry
and the request input, and executing it returns the registry state unchanged
— same keys, same backend per key. -/
theorem C7_registry_unchanged (apis : Registry) (provider : String)
    (rreq : RatesRequest) (areq : AccountRequest) :
    (getProviders apis).2.2 = apis ∧
    (getRates provider rreq apis).2.2 = apis ∧
    (getAccounts provider areq apis).2.2 = apis := by
  refine ⟨rfl, ?_, ?_⟩ <;>
    cases h : apis.lookup provider <;> simp [getRates, getAccounts, h]

/-- Claim C8: the registry lookup inside `getRates`/`getAccounts` is total:
for every identifier string (the empty string included) and every registry,
the operation terminates in exactly one of the two specified outcomes —
a found backend with delegation, or a not-found outcome with the
"Unknown provider" error — and never anything else. -/
theorem C8_lookup_total (provider : String) (rreq : RatesRequest)
    (areq : AccountRequest) (apis : Registry) :
    ((∃ api, apis.lookup provider = some api ∧
        getRates provider rreq apis
          = (api.GetCurrentLendingRates rreq.Assets,
             [BCall.lendingRates provider rreq.Assets], apis)) ∨
      (apis.lookup provider = none ∧
        getRates provider rreq apis
          = ((none, some ("Unknown provider " ++ provider)), [], apis))) ∧
    ((∃ api, apis.lookup provider = some api ∧
        getAccounts provider areq apis
          = (api.GetAccountLendingContracts areq,
             [BCall.accountContracts provider areq], apis)) ∨
      (apis.lookup provider = none ∧
        getAccounts provider areq apis
          = ((none, some ("Unknown provider " ++ provider)), [], apis))) := by
  constructor <;> cases h : apis.lookup provider
  · exact Or.inr ⟨rfl, by simp [getRates, h]⟩
  · exact Or.inl ⟨_, rfl, by simp [getRates, h]⟩
  · exact Or.inr ⟨rfl, by simp [getAccounts, h]⟩
  · exact Or.inl ⟨_, rfl, by simp [getAccounts, h]⟩

/-- Claim C9: when the registry is empty, or every backend's
`GetProviderInfo` fails, `getProviders` returns the non-nil empty slice and
a nil error: `(some [], none)`, not the absent slice `none` — so an empty
result is distinguishable from an absent one at the interface. -/
theorem C9_empty_result_non_nil (apis : Registry)
    (h : apis = [] ∨ ∀ kv ∈ apis, kv.2.GetProviderInfo.toOption = none) :
    (getProviders apis).1 = (some [], none) := by
  rw [getProviders_eq]
  rcases h with h | h
  · subst h; rfl
  · rw [List.filterMap_eq_nil_iff.mpr h]

theorem C9_witness : (getProviders [("b", failApi)]).1 = (some [], none) :=
  C9_empty_result_non_nil [("b", failApi)]
    (Or.inr (by intro kv hkv; simp only [List.mem_singleton] at hkv; subst hkv; rfl))

/-- Claim C10: when the provider is found, the backend receives the request
verbatim — the invocation trace of `getRates` records exactly
`GetCurrentLendingRates req.Assets` and that of `getAccounts` exactly
`GetAccountLendingContracts req`, for every request, empty lists included:
the core applies no defaulting, filtering, or expansion. -/
theorem C10_request_forwarded_verbatim
    (provider : String) (rreq : RatesRequest) (areq : AccountRequest)
    (apis : Registry) (api : LendingAPI)
    (h : apis.lookup provider = some api) :
    (getRates provider rreq apis).2.1 = [BCall.lendingRates provider rreq.Assets] ∧
    (getAccounts provider areq apis).2.1 = [BCall.accountContracts provider areq] := by
  constructor <;> simp [getRates, getAccounts, h]

theorem C10_witness :
    (getRates "a" ⟨[]⟩ regAB).2.1 = [BCall.lendingRates "a" []] ∧
    (getAccounts "a" ⟨[], []⟩ regAB).2.1 = [BCall.accountContracts "a" ⟨[], []⟩] :=
  C10_request_forwarded_verbatim "a" ⟨[]⟩ ⟨[], []⟩ regAB okApi rfl
